import Mathlib

/-! Verification of bitdns `client.c`: a single-connection TLS client over libevent.

A shallow embedding of `src/client.c`.  The program is a sequence of calls into
OpenSSL and libevent; every such call is recorded as an `Action` in a trace, and
what the library answers is read from a `World` (one value per call site).
Pointers are natural-number handles, `NULL` is `none`.  Bytes are natural
numbers, the terminator being `0`.
-/

namespace Client

/-! ## Observable actions -/

/-- One argument consumed by a conversion of a `printf` format. -/
inductive Arg
  /-- Conversion `%s` applied to a byte buffer: the bytes that it outputs. -/
  | str (bytes : List Nat)
  /-- Conversion `%d` applied to an `int`. -/
  | int (v : Int)
  /-- Conversion `%s` applied to a string owned by a library. -/
  | text (s : String)
deriving DecidableEq, Repr

/-- The library calls and output statements of `client.c`, with the arguments
that matter. -/
inductive Action
  | SSL_library_init
  | SSL_load_error_strings
  | SSLv23_client_method
  | SSL_CTX_new
  | SSL_CTX_load_verify_locations (ctx : Nat) (cafile : String)
  | SSL_CTX_use_certificate_file (ctx : Nat) (certfile : String)
  | SSL_CTX_use_PrivateKey_file (ctx : Nat) (keyfile : String)
  | SSL_CTX_check_private_key (ctx : Nat)
  | printf (fmt : String) (args : List Arg)
  | fprintf_stderr (fmt : String) (args : List Arg)
  | bufferevent_read (bev : Nat) (size : Nat)
  | bufferevent_write (bev : Nat) (data : List Nat) (size : Nat)
  | bufferevent_free (bev : Nat)
  | SSL_new (ctx : Nat)
  | event_base_new
  | bufferevent_openssl_socket_new (base : Nat) (ssl : Nat)
  | bufferevent_setcb (bev : Nat)
  | bufferevent_enable (bev : Nat)
  | evutil_parse_sockaddr_port (addr : String)
  | bufferevent_socket_connect (bev : Nat)
  | event_base_dispatch (base : Nat)
  | exit (status : Int)
deriving DecidableEq, Repr

/-- A trace together with the value handed back to the caller. -/
structure Ret (α : Type) where
  trace : List Action
  val : α

/-! ## What the libraries answer -/

/-- One notification that `event_base_dispatch` delivers to the callbacks
registered by `bufferevent_setcb`. -/
inductive Notif
  /-- The read callback fires; `bufferevent_read` will return `n`, a `size_t`,
  after having stored `data` at the start of the destination buffer. -/
  | read (n : Nat) (data : List Nat)
  /-- The event callback fires with mask `events` (a `short`);
  `EVUTIL_SOCKET_ERROR()` evaluates to `err` at that time. -/
  | event (events : Int) (err : Int)
deriving DecidableEq, Repr

/-- The event-mask constants of `<event2/bufferevent.h>` that `client.c` tests.
The header is not part of the repository, so the values are parameters. -/
structure Flags where
  BEV_EVENT_CONNECTED : Int
  BEV_EVENT_EOF : Int

/-- The values libevent 2.x gives the two constants. -/
def libeventFlags : Flags := ⟨0x80, 0x10⟩

/-- The answers of OpenSSL, libevent and the C library, one per call site. -/
structure World where
  SSL_CTX_new : Option Nat
  SSL_CTX_load_verify_locations : Int
  SSL_CTX_use_certificate_file : Int
  SSL_CTX_use_PrivateKey_file : Int
  SSL_CTX_check_private_key : Int
  SSL_new : Option Nat
  event_base_new : Option Nat
  bufferevent_openssl_socket_new : Option Nat
  evutil_parse_sockaddr_port : Int
  bufferevent_socket_connect : Int
  /-- Value of `EVUTIL_SOCKET_ERROR()` after a failed connect. -/
  EVUTIL_SOCKET_ERROR : Int
  evutil_socket_error_to_string : Int → String
  /-- The notifications that arrive for the session, in order.  libevent hands
  them to the callbacks while the session lives. -/
  delivered : List Notif

/-! ## `init_ssl_ctx` (client.c lines 13-57) -/

/-- Embedding of `init_ssl_ctx`. -/
def init_ssl_ctx (w : World) (certfile keyfile cafile : String) : Ret (Option Nat) :=
  let t0 : List Action :=
    [.SSL_library_init, .SSL_load_error_strings, .SSLv23_client_method, .SSL_CTX_new]
  match w.SSL_CTX_new with
  | none => ⟨t0 ++ [.printf "Could not new SSL_CTX\n" []], none⟩
  | some ctx =>
    let t1 : List Action :=
      [.SSL_CTX_load_verify_locations ctx cafile] ++
        (if w.SSL_CTX_load_verify_locations ≤ 0
          then [.printf "Could not load ca cert file\n" []] else [])
    let t2 : List Action :=
      [.SSL_CTX_use_certificate_file ctx certfile] ++
        (if w.SSL_CTX_use_certificate_file ≤ 0
          then [.printf "Could not use certificate file\n" []] else [])
    let t3 : List Action :=
      [.SSL_CTX_use_PrivateKey_file ctx keyfile] ++
        (if w.SSL_CTX_use_PrivateKey_file ≤ 0
          then [.printf "Could not use private key file\n" []] else [])
    let t4 : List Action :=
      [.SSL_CTX_check_private_key ctx] ++
        (if w.SSL_CTX_check_private_key = 0
          then [.printf "Private key does not match certfile\n" []] else [])
    ⟨t0 ++ t1 ++ t2 ++ t3 ++ t4, some ctx⟩

/-- Whether an action is one of the four load steps of `init_ssl_ctx`. -/
def Action.isLoadStep : Action → Bool
  | .SSL_CTX_load_verify_locations _ _ => true
  | .SSL_CTX_use_certificate_file _ _ => true
  | .SSL_CTX_use_PrivateKey_file _ _ => true
  | .SSL_CTX_check_private_key _ => true
  | _ => false

/-- The load steps attempted in a trace, in order. -/
def loadSteps (t : List Action) : List Action := t.filter Action.isLoadStep

/-- The texts written to standard output by `printf`, in order. -/
def diagnostics : List Action → List String
  | [] => []
  | .printf fmt _ :: t => fmt :: diagnostics t
  | _ :: t => diagnostics t

/-- The sub-errors the specification names for the credential store. -/
inductive SubError
  | TrustAnchorLoadFailed
  | CertificateLoadFailed
  | PrivateKeyLoadFailed
  | KeyMismatch
deriving DecidableEq, Repr

/-- The sub-errors in the order of their load steps. -/
def SubError.all : List SubError :=
  [.TrustAnchorLoadFailed, .CertificateLoadFailed, .PrivateKeyLoadFailed, .KeyMismatch]

/-- The message the program prints for a sub-error. -/
def SubError.message : SubError → String
  | .TrustAnchorLoadFailed => "Could not load ca cert file\n"
  | .CertificateLoadFailed => "Could not use certificate file\n"
  | .PrivateKeyLoadFailed => "Could not use private key file\n"
  | .KeyMismatch => "Private key does not match certfile\n"

/-- Whether the library call behind a sub-error failed in world `w`. -/
def SubError.occurs (w : World) : SubError → Bool
  | .TrustAnchorLoadFailed => decide (w.SSL_CTX_load_verify_locations ≤ 0)
  | .CertificateLoadFailed => decide (w.SSL_CTX_use_certificate_file ≤ 0)
  | .PrivateKeyLoadFailed => decide (w.SSL_CTX_use_PrivateKey_file ≤ 0)
  | .KeyMismatch => decide (w.SSL_CTX_check_private_key = 0)

/-- The diagnostics the non-aborting load policy asks for: one message per
failed step, in step order. -/
def expectedDiagnostics (w : World) : List String :=
  (SubError.all.filter (SubError.occurs w)).map SubError.message

/-- A world in which every call succeeds, the session connects and the peer
then closes. -/
def goodWorld : World where
  SSL_CTX_new := some 1
  SSL_CTX_load_verify_locations := 1
  SSL_CTX_use_certificate_file := 1
  SSL_CTX_use_PrivateKey_file := 1
  SSL_CTX_check_private_key := 1
  SSL_new := some 2
  event_base_new := some 3
  bufferevent_openssl_socket_new := some 4
  evutil_parse_sockaddr_port := 0
  bufferevent_socket_connect := 0
  EVUTIL_SOCKET_ERROR := 0
  evutil_socket_error_to_string := fun _ => "error"
  delivered := [.event 0x80 0, .event 0x10 0]

/-! ## `ssl_read_cb` (client.c lines 59-66) -/

/-- The array `char recvbuf[1024] = {'\0'}`: 1024 zero bytes. -/
def recvbuf_init : List Nat := List.replicate 1024 0

/-- The destination buffer after a library call has stored `data` at its start.
The library is handed the length of the buffer as the size limit, so it
stores at most that many bytes; the rest of the buffer keeps its contents. -/
def store (buf data : List Nat) : List Nat :=
  data.take buf.length ++ buf.drop data.length

/-- What the `%s` conversion outputs for a character array: the bytes before
the first terminator.  `none` when the array holds no terminator, in which case
the scan leaves the array and the behaviour of the program is undefined. -/
def cstr : List Nat → Option (List Nat)
  | [] => none
  | b :: bs => if b = 0 then some [] else (cstr bs).map (fun s => b :: s)

/-- Embedding of `ssl_read_cb`.  `n` and `data` are the answer of
`bufferevent_read(bev, recvbuf, 1024)`: its return value, of the unsigned type
`size_t`, and the bytes it stored.  The result is `none` when the behaviour is
undefined. -/
def ssl_read_cb (bev : Nat) (n : Nat) (data : List Nat) : Option (List Action) :=
  let recvbuf := store recvbuf_init data
  if n > 0 then
    match cstr recvbuf with
    | some s => some [.bufferevent_read bev 1024, .printf "Recv from client: %s\n" [.str s]]
    | none => none
  else
    some [.bufferevent_read bev 1024]

/-! ## `ssl_event_cb` (client.c lines 68-88) -/

/-- The macro `MSG`. -/
def MSG : String := "Hello world"

/-- The array a string literal denotes: its characters and a terminator. -/
def literal (s : String) : List Nat := s.toList.map Char.toNat ++ [0]

/-- The value of `sizeof` on a string literal: the terminator is counted. -/
def sizeof_literal (s : String) : Nat := s.length + 1

/-- The bytes handed to `bufferevent_write(bev, MSG, sizeof(MSG))`. -/
def greeting : List Nat := (literal MSG).take (sizeof_literal MSG)

/-- Embedding of `ssl_event_cb`.  `err` is the value of `EVUTIL_SOCKET_ERROR()`
and `errstr` is `evutil_socket_error_to_string`. -/
def ssl_event_cb (K : Flags) (errstr : Int → String) (bev : Nat) (events : Int) (err : Int) :
    List Action :=
  if Int.land events K.BEV_EVENT_CONNECTED ≠ 0 then
    [.printf "Client connected!\n" [], .bufferevent_write bev greeting (sizeof_literal MSG)]
  else if Int.land events K.BEV_EVENT_EOF ≠ 0 then
    [.printf "Client disconnected!\n" [], .bufferevent_free bev]
  else
    [.fprintf_stderr "Got an error %d on ssl socket: %s\n" [.int err, .text (errstr err)],
      .bufferevent_free bev]

/-- The sessions freed in a trace, one entry per `bufferevent_free`. -/
def frees : List Action → List Nat
  | [] => []
  | .bufferevent_free bev :: t => bev :: frees t
  | _ :: t => frees t

/-- The payloads written in a trace, one entry per `bufferevent_write`. -/
def writes : List Action → List (Nat × List Nat)
  | [] => []
  | .bufferevent_write bev data _ :: t => (bev, data) :: writes t
  | _ :: t => writes t

/-- Whether an action operates on a bufferevent. -/
def Action.onSession : Action → Bool
  | .bufferevent_read _ _ => true
  | .bufferevent_write _ _ _ => true
  | .bufferevent_free _ => true
  | .bufferevent_setcb _ => true
  | .bufferevent_enable _ => true
  | .bufferevent_socket_connect _ => true
  | _ => false

/-- The actions of a trace that operate on a bufferevent. -/
def sessionActions (t : List Action) : List Action := t.filter Action.onSession

/-! ## The callbacks under `event_base_dispatch` -/

/-- The callback that a notification runs, as registered by
`bufferevent_setcb(bev, ssl_read_cb, NULL, ssl_event_cb, NULL)`. -/
def deliver (K : Flags) (errstr : Int → String) (bev : Nat) : Notif → Option (List Action)
  | .read n data => ssl_read_cb bev n data
  | .event events err => some (ssl_event_cb K errstr bev events err)

/-- The callbacks that `event_base_dispatch` runs for the session `bev` out of
the notifications that arrive for it.  libevent delivers to a live session
only: once a callback has called `bufferevent_free` on the session, nothing
further is delivered and the loop, left without events, returns.  The flag
tells whether the session was freed; while it is `false` the loop keeps
waiting.  The result is `none` as soon as a callback has undefined behaviour. -/
def dispatch (K : Flags) (errstr : Int → String) (bev : Nat) :
    List Notif → Option (List Action × Bool)
  | [] => some ([], false)
  | x :: xs =>
    match deliver K errstr bev x with
    | none => none
    | some t =>
      if bev ∈ frees t then some (t, true)
      else
        match dispatch K errstr bev xs with
        | none => none
        | some (ts, freed) => some (t ++ ts, freed)

/-- Whether the string scan of `ssl_read_cb` meets a terminator inside
`recvbuf` for this notification, or is not run at all. -/
def Notif.terminated : Notif → Bool
  | .read n data => decide (n = 0) || decide (data.length < 1024) || decide (0 ∈ data.take 1024)
  | .event _ _ => true

/-- Whether a notification is an event whose mask lacks the connected bit: the
ones for which `ssl_event_cb` frees the session. -/
def Notif.teardown (K : Flags) : Notif → Bool
  | .read _ _ => false
  | .event events _ => decide (Int.land events K.BEV_EVENT_CONNECTED = 0)

/-! ## `main` (client.c lines 90-144) -/

/-- Modelled from the spec: the macro `EXIT_FAILURE` of `<stdlib.h>`, which is not
under `src/`; it is taken to be 1. -/
def EXIT_FAILURE : Int := 1

/-- How a run of the program ends. -/
inductive Termination
  /-- The process was ended by `exit`; the status is what the parent sees. -/
  | exited (status : Nat)
  /-- The function `main` returned the value. -/
  | returned (v : Int)
  /-- The call of `event_base_dispatch` has not returned: the session is still
  registered and no notification is left. -/
  | blocked
  /-- A callback had undefined behaviour. -/
  | undefined
deriving DecidableEq, Repr

/-- The exit status seen by the parent for `exit(status)`: `status & 0377`. -/
def exit_status (status : Int) : Nat := (status % 256).toNat

/-- A run of the program: trace and way of ending. -/
structure Run where
  trace : List Action
  result : Termination

/-- The run that ends in `exit(status)` after trace `t`. -/
def die (t : List Action) (status : Int) : Run :=
  ⟨t ++ [.exit status], .exited (exit_status status)⟩

/-- Embedding of `main`. -/
def main (K : Flags) (w : World) : Run :=
  let r := init_ssl_ctx w "./PEMS/client/client.crt" "./PEMS/client/client.key"
    "./PEMS/ca/ca.cert"
  match r.val with
  | none => die r.trace (-1)
  | some ctx =>
    let t1 := r.trace ++ [.SSL_new ctx]
    match w.SSL_new with
    | none => die (t1 ++ [.printf "Could not create new SSL\n" []]) (-1)
    | some ssl =>
      let t2 := t1 ++ [.event_base_new]
      match w.event_base_new with
      | none => die (t2 ++ [.fprintf_stderr "Could not open evnet base\n" []]) EXIT_FAILURE
      | some base =>
        let t3 := t2 ++ [.bufferevent_openssl_socket_new base ssl]
        match w.bufferevent_openssl_socket_new with
        | none =>
          die (t3 ++ [.fprintf_stderr "Could not create new ssl bufferevent\n" []]) EXIT_FAILURE
        | some bev =>
          let t4 := t3 ++ [.bufferevent_setcb bev, .bufferevent_enable bev,
            .evutil_parse_sockaddr_port "127.0.0.1:1234"]
          if w.evutil_parse_sockaddr_port = -1 then
            die (t4 ++ [.fprintf_stderr "Could not parse address\n" []]) EXIT_FAILURE
          else
            let t5 := t4 ++ [.bufferevent_socket_connect bev]
            if w.bufferevent_socket_connect = -1 then
              die (t5 ++ [.fprintf_stderr "Could not connect to server: %s\n"
                [.text (w.evutil_socket_error_to_string w.EVUTIL_SOCKET_ERROR)]]) EXIT_FAILURE
            else
              let t6 := t5 ++ [.event_base_dispatch base]
              match dispatch K w.evutil_socket_error_to_string bev w.delivered with
              | none => ⟨t6, .undefined⟩
              | some (cb, true) => ⟨t6 ++ cb, .returned 0⟩
              | some (cb, false) => ⟨t6 ++ cb, .blocked⟩

/-- The setup steps of `main`, in program order. -/
inductive Step
  | context
  | sslObject
  | eventBase
  | sslBufferevent
  | addressParse
  | connectInitiation
deriving DecidableEq, Repr

/-- The setup steps in program order. -/
def Step.all : List Step :=
  [.context, .sslObject, .eventBase, .sslBufferevent, .addressParse, .connectInitiation]

/-- The trace of the call of `init_ssl_ctx` that `main` makes. -/
def init_trace (w : World) : List Action :=
  (init_ssl_ctx w "./PEMS/client/client.crt" "./PEMS/client/client.key"
    "./PEMS/ca/ca.cert").trace

/-- The trace of `main` up to the call of `event_base_dispatch`, when every
setup step succeeds with the given handles. -/
def setup_trace (w : World) (ctx ssl base bev : Nat) : List Action :=
  init_trace w ++ [.SSL_new ctx] ++ [.event_base_new] ++
    [.bufferevent_openssl_socket_new base ssl] ++
    [.bufferevent_setcb bev, .bufferevent_enable bev,
      .evutil_parse_sockaddr_port "127.0.0.1:1234"] ++
    [.bufferevent_socket_connect bev] ++ [.event_base_dispatch base]

/-! ## Theorems -/

/-! ### Lemmas on the string scan and the receive buffer -/

theorem cstr_eq (buf : List Nat) :
    cstr buf = if 0 ∈ buf then some (buf.takeWhile (fun b => b ≠ 0)) else none := by
  induction buf with
  | nil => simp [cstr]
  | cons b bs ih =>
    by_cases hb : b = 0
    · subst hb
      simp [cstr]
    · have hb0 : ¬ (0 = b) := fun h => hb h.symm
      by_cases hz : 0 ∈ bs
      · simp [cstr, hb, hb0, hz, ih, List.takeWhile_cons]
      · simp [cstr, hb, hb0, hz, ih]

theorem takeWhile_append_zeros (data : List Nat) (k : Nat) :
    (data ++ List.replicate (k + 1) 0).takeWhile (fun b => b ≠ 0) =
      data.takeWhile (fun b => b ≠ 0) := by
  induction data with
  | nil => simp [List.replicate_succ, List.takeWhile_cons]
  | cons b bs ih =>
    by_cases hb : b = 0
    · simp [hb, List.takeWhile_cons]
    · simp only [List.cons_append, List.takeWhile_cons, hb, ne_eq, not_false_eq_true,
        decide_True, if_true, ih]

theorem length_recvbuf_init : recvbuf_init.length = 1024 :=
  List.length_replicate 1024 0

theorem store_recvbuf_short (data : List Nat) (h : data.length < 1024) :
    store recvbuf_init data = data ++ List.replicate (1023 - data.length + 1) 0 := by
  have hk : 1024 - data.length = 1023 - data.length + 1 := by omega
  unfold store
  rw [length_recvbuf_init, List.take_of_length_le (by omega)]
  unfold recvbuf_init
  rw [List.drop_replicate, hk]

theorem store_recvbuf_full (data : List Nat) (h : 1024 ≤ data.length) :
    store recvbuf_init data = data.take 1024 := by
  unfold store
  rw [length_recvbuf_init, List.drop_eq_nil_of_le (by rw [length_recvbuf_init]; exact h),
    List.append_nil]

theorem length_store_recvbuf (data : List Nat) : (store recvbuf_init data).length = 1024 := by
  by_cases h : data.length < 1024
  · rw [store_recvbuf_short data h, List.length_append, List.length_replicate]
    omega
  · rw [store_recvbuf_full data (by omega), List.length_take]
    omega

/-- The scan of the buffer after a read of fewer than 1024 bytes. -/
theorem cstr_store_short (data : List Nat) (h : data.length < 1024) :
    cstr (store recvbuf_init data) = some (data.takeWhile (fun b => b ≠ 0)) := by
  rw [store_recvbuf_short data h, cstr_eq, takeWhile_append_zeros]
  simp [List.replicate_succ]

/-- The scan of the buffer after a read that filled it. -/
theorem cstr_store_full (data : List Nat) (h : data.length = 1024) :
    cstr (store recvbuf_init data) =
      if 0 ∈ data then some (data.takeWhile (fun b => b ≠ 0)) else none := by
  rw [store_recvbuf_full data (by omega), List.take_of_length_le (by omega), cstr_eq]


/-- What `ssl_read_cb` does after a read of fewer than 1024 bytes. -/
theorem ssl_read_cb_short (bev : Nat) (n : Nat) (data : List Nat) (hn : 0 < n)
    (h : data.length < 1024) :
    ssl_read_cb bev n data =
      some [.bufferevent_read bev 1024,
        .printf "Recv from client: %s\n" [.str (data.takeWhile (fun b => b ≠ 0))]] := by
  unfold ssl_read_cb
  simp only [gt_iff_lt, hn, if_true, cstr_store_short data h]

/-- What `ssl_read_cb` does after a read that filled the buffer. -/
theorem ssl_read_cb_full (bev : Nat) (n : Nat) (data : List Nat) (hn : 0 < n)
    (h : data.length = 1024) :
    ssl_read_cb bev n data =
      if 0 ∈ data then
        some [.bufferevent_read bev 1024,
          .printf "Recv from client: %s\n" [.str (data.takeWhile (fun b => b ≠ 0))]]
      else none := by
  unfold ssl_read_cb
  simp only [gt_iff_lt, hn, if_true, cstr_store_full data h]
  split_ifs <;> rfl

/-- What `ssl_read_cb` does when the read returns zero. -/
theorem ssl_read_cb_zero (bev : Nat) (data : List Nat) :
    ssl_read_cb bev 0 data = some [.bufferevent_read bev 1024] := by
  unfold ssl_read_cb
  simp only [gt_iff_lt, lt_irrefl, if_false]

theorem frees_append (a b : List Action) : frees (a ++ b) = frees a ++ frees b := by
  induction a with
  | nil => rfl
  | cons x xs ih => cases x <;> simp [frees, ih]

theorem frees_ssl_event_cb (K : Flags) (errstr : Int → String) (bev : Nat) (events err : Int) :
    frees (ssl_event_cb K errstr bev events err) =
      if Int.land events K.BEV_EVENT_CONNECTED = 0 then [bev] else [] := by
  unfold ssl_event_cb
  by_cases h : Int.land events K.BEV_EVENT_CONNECTED = 0 <;>
  by_cases he : Int.land events K.BEV_EVENT_EOF = 0 <;> simp [h, he, frees]

/-- A terminated read notification makes `ssl_read_cb` return a trace, and the
trace frees nothing. -/
theorem ssl_read_cb_defined (bev : Nat) (n : Nat) (data : List Nat)
    (h : (Notif.read n data).terminated = true) :
    ∃ t, ssl_read_cb bev n data = some t ∧ frees t = [] := by
  rcases Nat.eq_zero_or_pos n with hn | hpos
  · subst hn
    exact ⟨_, ssl_read_cb_zero bev data, rfl⟩
  · have hn : n ≠ 0 := Nat.pos_iff_ne_zero.mp hpos
    by_cases hs : data.length < 1024
    · exact ⟨_, ssl_read_cb_short bev n data hpos hs, rfl⟩
    · have hz : 0 ∈ data.take 1024 := by
        simpa [Notif.terminated, hn, hs] using h
      have hbuf : store recvbuf_init data = data.take 1024 :=
        store_recvbuf_full data (by omega)
      refine ⟨[.bufferevent_read bev 1024, .printf "Recv from client: %s\n"
        [.str ((data.take 1024).takeWhile (fun b => b ≠ 0))]], ?_, rfl⟩
      unfold ssl_read_cb
      simp only [gt_iff_lt, hpos, if_true, hbuf, cstr_eq, hz]

/-- Every terminated notification runs a callback to its end; the callback
frees the session once when the notification is a teardown event and not at
all otherwise. -/
theorem deliver_defined (K : Flags) (errstr : Int → String) (bev : Nat) (x : Notif)
    (h : x.terminated = true) :
    ∃ t, deliver K errstr bev x = some t ∧
      frees t = if x.teardown K = true then [bev] else [] := by
  cases x with
  | read n data =>
    obtain ⟨t, ht, hf⟩ := ssl_read_cb_defined bev n data h
    exact ⟨t, ht, by simp [hf, Notif.teardown]⟩
  | event events err =>
    refine ⟨_, rfl, ?_⟩
    rw [frees_ssl_event_cb]
    simp [Notif.teardown]

/-- A sequence of terminated notifications is dispatched to its end or to the
first teardown event; the session is freed exactly when the sequence holds a
teardown event, and then once. -/
theorem dispatch_defined (K : Flags) (errstr : Int → String) (bev : Nat)
    (ns : List Notif) (h : ∀ x ∈ ns, x.terminated = true) :
    ∃ t, dispatch K errstr bev ns = some (t, ns.any (Notif.teardown K)) ∧
      frees t = if ns.any (Notif.teardown K) = true then [bev] else [] := by
  induction ns with
  | nil => exact ⟨[], rfl, rfl⟩
  | cons x xs ih =>
    obtain ⟨t1, h1, hf1⟩ := deliver_defined K errstr bev x (h x (List.mem_cons_self x xs))
    obtain ⟨t2, h2, hf2⟩ := ih (fun y hy => h y (List.mem_cons_of_mem x hy))
    by_cases ht : x.teardown K = true
    · refine ⟨t1, ?_, ?_⟩
      · unfold dispatch
        rw [h1]
        simp [hf1, ht]
      · simp [hf1, ht]
    · refine ⟨t1 ++ t2, ?_, ?_⟩
      · unfold dispatch
        rw [h1, h2]
        simp [hf1, ht]
      · rw [frees_append, hf1, hf2]
        simp [ht]

/-! ### Lemmas on `init_ssl_ctx` and `main` -/

theorem init_ssl_ctx_val (w : World) (certfile keyfile cafile : String) :
    (init_ssl_ctx w certfile keyfile cafile).val = w.SSL_CTX_new := by
  unfold init_ssl_ctx
  cases w.SSL_CTX_new <;> rfl

theorem main_no_ssl (K : Flags) (w : World) (ctx : Nat) (h0 : w.SSL_CTX_new = some ctx)
    (h1 : w.SSL_new = none) :
    main K w =
      die (init_trace w ++ [.SSL_new ctx] ++ [.printf "Could not create new SSL\n" []])
        (-1) := by
  unfold main
  simp only [init_ssl_ctx_val, h0, h1]
  rfl

theorem main_no_base (K : Flags) (w : World) (ctx ssl : Nat) (h0 : w.SSL_CTX_new = some ctx)
    (h1 : w.SSL_new = some ssl) (h2 : w.event_base_new = none) :
    main K w =
      die (init_trace w ++ [.SSL_new ctx] ++ [.event_base_new] ++
        [.fprintf_stderr "Could not open evnet base\n" []]) EXIT_FAILURE := by
  unfold main
  simp only [init_ssl_ctx_val, h0, h1, h2]
  rfl

theorem main_no_bev (K : Flags) (w : World) (ctx ssl base : Nat)
    (h0 : w.SSL_CTX_new = some ctx) (h1 : w.SSL_new = some ssl)
    (h2 : w.event_base_new = some base) (h3 : w.bufferevent_openssl_socket_new = none) :
    main K w =
      die (init_trace w ++ [.SSL_new ctx] ++ [.event_base_new] ++
        [.bufferevent_openssl_socket_new base ssl] ++
        [.fprintf_stderr "Could not create new ssl bufferevent\n" []]) EXIT_FAILURE := by
  unfold main
  simp only [init_ssl_ctx_val, h0, h1, h2, h3]
  rfl

theorem main_no_parse (K : Flags) (w : World) (ctx ssl base bev : Nat)
    (h0 : w.SSL_CTX_new = some ctx) (h1 : w.SSL_new = some ssl)
    (h2 : w.event_base_new = some base) (h3 : w.bufferevent_openssl_socket_new = some bev)
    (h4 : w.evutil_parse_sockaddr_port = -1) :
    main K w =
      die (init_trace w ++ [.SSL_new ctx] ++ [.event_base_new] ++
        [.bufferevent_openssl_socket_new base ssl] ++
        [.bufferevent_setcb bev, .bufferevent_enable bev,
          .evutil_parse_sockaddr_port "127.0.0.1:1234"] ++
        [.fprintf_stderr "Could not parse address\n" []]) EXIT_FAILURE := by
  unfold main
  simp only [init_ssl_ctx_val, h0, h1, h2, h3, h4]
  rfl

theorem main_no_connect (K : Flags) (w : World) (ctx ssl base bev : Nat)
    (h0 : w.SSL_CTX_new = some ctx) (h1 : w.SSL_new = some ssl)
    (h2 : w.event_base_new = some base) (h3 : w.bufferevent_openssl_socket_new = some bev)
    (h4 : w.evutil_parse_sockaddr_port ≠ -1) (h5 : w.bufferevent_socket_connect = -1) :
    main K w =
      die (init_trace w ++ [.SSL_new ctx] ++ [.event_base_new] ++
        [.bufferevent_openssl_socket_new base ssl] ++
        [.bufferevent_setcb bev, .bufferevent_enable bev,
          .evutil_parse_sockaddr_port "127.0.0.1:1234"] ++
        [.bufferevent_socket_connect bev] ++
        [.fprintf_stderr "Could not connect to server: %s\n"
          [.text (w.evutil_socket_error_to_string w.EVUTIL_SOCKET_ERROR)]]) EXIT_FAILURE := by
  unfold main
  simp only [init_ssl_ctx_val, h0, h1, h2, h3, h4, h5, if_true, if_false]
  rfl

theorem main_dispatch (K : Flags) (w : World) (ctx ssl base bev : Nat)
    (h0 : w.SSL_CTX_new = some ctx) (h1 : w.SSL_new = some ssl)
    (h2 : w.event_base_new = some base) (h3 : w.bufferevent_openssl_socket_new = some bev)
    (h4 : w.evutil_parse_sockaddr_port ≠ -1) (h5 : w.bufferevent_socket_connect ≠ -1) :
    main K w =
      match dispatch K w.evutil_socket_error_to_string bev w.delivered with
      | none => ⟨setup_trace w ctx ssl base bev, .undefined⟩
      | some (cb, true) => ⟨setup_trace w ctx ssl base bev ++ cb, .returned 0⟩
      | some (cb, false) => ⟨setup_trace w ctx ssl base bev ++ cb, .blocked⟩ := by
  unfold main
  simp only [init_ssl_ctx_val, h0, h1, h2, h3, h4, h5, if_false]
  rfl

/-- Once the context exists, `main` goes on to call `SSL_new` on it. -/
theorem main_calls_SSL_new (K : Flags) (w : World) (ctx : Nat)
    (h0 : w.SSL_CTX_new = some ctx) :
    ∃ t, (main K w).trace = init_trace w ++ Action.SSL_new ctx :: t := by
  rcases h1 : w.SSL_new with _ | ssl
  · exact ⟨_, by rw [main_no_ssl K w ctx h0 h1]; simp [die]; rfl⟩
  rcases h2 : w.event_base_new with _ | base
  · exact ⟨_, by rw [main_no_base K w ctx ssl h0 h1 h2]; simp [die]; rfl⟩
  rcases h3 : w.bufferevent_openssl_socket_new with _ | bev
  · exact ⟨_, by rw [main_no_bev K w ctx ssl base h0 h1 h2 h3]; simp [die]; rfl⟩
  by_cases h4 : w.evutil_parse_sockaddr_port = -1
  · exact ⟨_, by rw [main_no_parse K w ctx ssl base bev h0 h1 h2 h3 h4]; simp [die]; rfl⟩
  by_cases h5 : w.bufferevent_socket_connect = -1
  · exact ⟨_, by rw [main_no_connect K w ctx ssl base bev h0 h1 h2 h3 h4 h5]; simp [die]; rfl⟩
  rw [main_dispatch K w ctx ssl base bev h0 h1 h2 h3 h4 h5]
  rcases dispatch K w.evutil_socket_error_to_string bev w.delivered with _ | ⟨cb, _ | _⟩
  · exact ⟨_, by simp [setup_trace]; rfl⟩
  · exact ⟨_, by simp [setup_trace]; rfl⟩
  · exact ⟨_, by simp [setup_trace]; rfl⟩

/-- C1: `init_ssl_ctx` hands back exactly what `SSL_CTX_new` produced, so it is
`NULL` if and only if context creation failed, whatever the four load steps
answer; and when context creation fails the trace is the fixed five actions
ending in the diagnostic, with no load step attempted. -/
theorem init_ssl_ctx_null_iff_ctx_new_fails (w : World) (certfile keyfile cafile : String) :
    (init_ssl_ctx w certfile keyfile cafile).val = w.SSL_CTX_new ∧
    ((init_ssl_ctx w certfile keyfile cafile).val = none ↔ w.SSL_CTX_new = none) ∧
    (init_ssl_ctx { w with SSL_CTX_new := none } certfile keyfile cafile).val = none ∧
    (init_ssl_ctx { w with SSL_CTX_new := none } certfile keyfile cafile).trace =
      [.SSL_library_init, .SSL_load_error_strings, .SSLv23_client_method, .SSL_CTX_new,
        .printf "Could not new SSL_CTX\n" []] ∧
    loadSteps (init_ssl_ctx { w with SSL_CTX_new := none } certfile keyfile cafile).trace = [] := by
  have hval : (init_ssl_ctx w certfile keyfile cafile).val = w.SSL_CTX_new := by
    unfold init_ssl_ctx
    cases w.SSL_CTX_new <;> rfl
  refine ⟨hval, by rw [hval], rfl, rfl, rfl⟩

/-- C2: when the context is created, the four load steps are attempted in the
order trust anchor, certificate, private key, key match whatever the earlier
ones answered; the messages printed are exactly one per failed step, in step
order; and the four messages are pairwise distinct. -/
theorem init_ssl_ctx_non_aborting (w : World) (ctx : Nat) (certfile keyfile cafile : String)
    (hctx : w.SSL_CTX_new = some ctx) :
    loadSteps (init_ssl_ctx w certfile keyfile cafile).trace =
      [.SSL_CTX_load_verify_locations ctx cafile, .SSL_CTX_use_certificate_file ctx certfile,
        .SSL_CTX_use_PrivateKey_file ctx keyfile, .SSL_CTX_check_private_key ctx] ∧
    diagnostics (init_ssl_ctx w certfile keyfile cafile).trace = expectedDiagnostics w ∧
    (SubError.all.map SubError.message).Nodup := by
  refine ⟨?_, ?_, by decide⟩
  · unfold init_ssl_ctx
    rw [hctx]
    simp only [loadSteps]
    split_ifs <;> rfl
  · unfold init_ssl_ctx
    rw [hctx]
    by_cases h1 : w.SSL_CTX_load_verify_locations ≤ 0 <;>
    by_cases h2 : w.SSL_CTX_use_certificate_file ≤ 0 <;>
    by_cases h3 : w.SSL_CTX_use_PrivateKey_file ≤ 0 <;>
    by_cases h4 : w.SSL_CTX_check_private_key = 0 <;>
    simp [diagnostics, expectedDiagnostics, SubError.all, SubError.occurs, SubError.message,
      List.filter_cons, h1, h2, h3, h4]

/-- C2 at a world whose trust-anchor load fails and whose other steps succeed. -/
theorem init_ssl_ctx_non_aborting_witness :
    loadSteps (init_ssl_ctx { goodWorld with SSL_CTX_load_verify_locations := 0 }
        "c" "k" "a").trace =
      [.SSL_CTX_load_verify_locations 1 "a", .SSL_CTX_use_certificate_file 1 "c",
        .SSL_CTX_use_PrivateKey_file 1 "k", .SSL_CTX_check_private_key 1] ∧
    diagnostics (init_ssl_ctx { goodWorld with SSL_CTX_load_verify_locations := 0 }
        "c" "k" "a").trace = ["Could not load ca cert file\n"] :=
  have h := init_ssl_ctx_non_aborting { goodWorld with SSL_CTX_load_verify_locations := 0 }
    1 "c" "k" "a" rfl
  ⟨h.1, h.2.1.trans (by decide)⟩

/-- C4: `ssl_event_cb` writes the greeting if and only if the connected bit is
set in the mask: with the bit, the trace holds exactly one `bufferevent_write`,
of the greeting, and no `bufferevent_free`, whatever the other bits; without
it, the trace holds no write.  The greeting is the eleven characters of
`Hello world` and the terminator. -/
theorem ssl_event_cb_greeting_iff_connected (K : Flags) (errstr : Int → String) (bev : Nat)
    (events err : Int) :
    (Int.land events K.BEV_EVENT_CONNECTED ≠ 0 →
      writes (ssl_event_cb K errstr bev events err) = [(bev, greeting)] ∧
      frees (ssl_event_cb K errstr bev events err) = []) ∧
    (Int.land events K.BEV_EVENT_CONNECTED = 0 →
      writes (ssl_event_cb K errstr bev events err) = []) ∧
    (writes (ssl_event_cb K errstr bev events err) ≠ [] ↔
      Int.land events K.BEV_EVENT_CONNECTED ≠ 0) ∧
    greeting = [72, 101, 108, 108, 111, 32, 119, 111, 114, 108, 100, 0] := by
  refine ⟨?_, ?_, ?_, by decide⟩
  · intro h
    simp [ssl_event_cb, h, writes, frees]
  · intro h
    unfold ssl_event_cb
    by_cases he : Int.land events K.BEV_EVENT_EOF = 0 <;> simp [h, he, writes]
  · unfold ssl_event_cb
    by_cases h : Int.land events K.BEV_EVENT_CONNECTED = 0 <;>
    by_cases he : Int.land events K.BEV_EVENT_EOF = 0 <;> simp [h, he, writes]

/-- C4 at the masks `CONNECTED|EOF` (write, nothing freed) and `EOF|ERROR`
(no write), with the constants of libevent. -/
theorem ssl_event_cb_greeting_iff_connected_witness :
    (writes (ssl_event_cb libeventFlags (fun _ => "") 4 0x90 0) = [(4, greeting)] ∧
      frees (ssl_event_cb libeventFlags (fun _ => "") 4 0x90 0) = []) ∧
    writes (ssl_event_cb libeventFlags (fun _ => "") 4 0x30 0) = [] :=
  ⟨(ssl_event_cb_greeting_iff_connected libeventFlags (fun _ => "") 4 0x90 0).1 (by decide),
    (ssl_event_cb_greeting_iff_connected libeventFlags (fun _ => "") 4 0x30 0).2.1 (by decide)⟩

/-- C6: for every mask without the connected bit, what `ssl_event_cb` does on
the session is one `bufferevent_free` and nothing else, with the end-of-file
bit or without it; the two branches differ in the message only: with the bit
`Client disconnected!` on standard output, without it the error code and its
description on standard error. -/
theorem ssl_event_cb_cleanup_identical (K : Flags) (errstr : Int → String) (bev : Nat)
    (events err : Int) (h : Int.land events K.BEV_EVENT_CONNECTED = 0) :
    sessionActions (ssl_event_cb K errstr bev events err) = [.bufferevent_free bev] ∧
    (Int.land events K.BEV_EVENT_EOF ≠ 0 →
      ssl_event_cb K errstr bev events err =
        [.printf "Client disconnected!\n" [], .bufferevent_free bev]) ∧
    (Int.land events K.BEV_EVENT_EOF = 0 →
      ssl_event_cb K errstr bev events err =
        [.fprintf_stderr "Got an error %d on ssl socket: %s\n" [.int err, .text (errstr err)],
          .bufferevent_free bev]) := by
  unfold ssl_event_cb
  by_cases he : Int.land events K.BEV_EVENT_EOF = 0 <;>
    simp [h, he, sessionActions, Action.onSession]

/-- C6 at the masks `EOF` and `ERROR` with the constants of libevent. -/
theorem ssl_event_cb_cleanup_identical_witness :
    sessionActions (ssl_event_cb libeventFlags (fun _ => "refused") 4 0x10 111) =
      sessionActions (ssl_event_cb libeventFlags (fun _ => "refused") 4 0x20 111) ∧
    ssl_event_cb libeventFlags (fun _ => "refused") 4 0x20 111 =
      [.fprintf_stderr "Got an error %d on ssl socket: %s\n" [.int 111, .text "refused"],
        .bufferevent_free 4] :=
  ⟨(ssl_event_cb_cleanup_identical libeventFlags (fun _ => "refused") 4 0x10 111
      (by decide)).1.trans
    (ssl_event_cb_cleanup_identical libeventFlags (fun _ => "refused") 4 0x20 111
      (by decide)).1.symm,
    (ssl_event_cb_cleanup_identical libeventFlags (fun _ => "refused") 4 0x20 111
      (by decide)).2.2 (by decide)⟩

/-- C8, as stated, fails: when the peer echoes the twelve bytes of the greeting,
`ssl_read_cb` surfaces the eleven characters before the terminator, which are
not the twelve bytes that were sent. -/
theorem echo_of_greeting_not_bytewise :
    greeting.length = 12 ∧
    ssl_read_cb 4 12 greeting =
      some [.bufferevent_read 4 1024,
        .printf "Recv from client: %s\n"
          [.str [72, 101, 108, 108, 111, 32, 119, 111, 114, 108, 100]]] ∧
    [72, 101, 108, 108, 111, 32, 119, 111, 114, 108, 100] ≠ greeting :=
  ⟨by decide, (ssl_read_cb_short 4 12 greeting (by decide) (by decide)).trans (by decide),
    by decide⟩

/-- C8, amended: for a chunk of `n` received bytes with `1 ≤ n ≤ 1024` that is
shorter than the buffer or holds a zero byte, `ssl_read_cb` surfaces the
received bytes up to, not including, their first zero byte; that payload is
the whole chunk if and only if the chunk holds no zero byte.  For the echoed
greeting the payload is the characters of `Hello world`, the greeting without
its terminator. -/
theorem ssl_read_cb_surfaces_up_to_first_nul (bev : Nat) (data : List Nat)
    (h1 : 1 ≤ data.length) (h2 : data.length ≤ 1024) (ht : data.length < 1024 ∨ 0 ∈ data) :
    ssl_read_cb bev data.length data =
      some [.bufferevent_read bev 1024,
        .printf "Recv from client: %s\n" [.str (data.takeWhile (fun b => b ≠ 0))]] ∧
    (data.takeWhile (fun b => b ≠ 0) = data ↔ 0 ∉ data) ∧
    greeting.takeWhile (fun b => b ≠ 0) = MSG.toList.map Char.toNat ∧
    greeting = MSG.toList.map Char.toNat ++ [0] := by
  have hn : 0 < data.length := h1
  refine ⟨?_, ?_, by decide, by decide⟩
  · by_cases hs : data.length < 1024
    · exact ssl_read_cb_short bev _ data hn hs
    · have hz : 0 ∈ data := ht.resolve_left hs
      rw [ssl_read_cb_full bev _ data hn (by omega), if_pos hz]
  · rw [List.takeWhile_eq_self_iff]
    constructor
    · intro h hz
      have := h 0 hz
      simp at this
    · intro h x hx
      have hx0 : x ≠ 0 := fun h0 => h (h0 ▸ hx)
      simp [hx0]

/-- C8 amended, at the echoed greeting and at a chunk with a zero byte inside. -/
theorem ssl_read_cb_surfaces_up_to_first_nul_witness :
    ssl_read_cb 4 12 greeting =
      some [.bufferevent_read 4 1024,
        .printf "Recv from client: %s\n" [.str (MSG.toList.map Char.toNat)]] ∧
    ssl_read_cb 4 3 [65, 0, 66] =
      some [.bufferevent_read 4 1024, .printf "Recv from client: %s\n" [.str [65]]] :=
  ⟨(ssl_read_cb_surfaces_up_to_first_nul 4 greeting (by decide) (by decide)
      (Or.inl (by decide))).1.trans (by decide),
    (ssl_read_cb_surfaces_up_to_first_nul 4 [65, 0, 66] (by decide) (by decide)
      (Or.inl (by decide))).1.trans (by decide)⟩

/-- C10: the string scan of the receive buffer ends inside the array exactly
when the array holds a zero byte.  After a read of `n` bytes with
`0 < n < 1024` the buffer holds a zero byte at an index `≤ n` (index `n`, left
by the initialisation) and the payload printed is the received bytes before
their first zero byte.  After a read of 1024 bytes none of which is zero, no
index of the buffer holds a zero byte, so the scan finds no terminator in the
array. -/
theorem recvbuf_scan_bounded_iff_terminator (bev : Nat) (data : List Nat) :
    (∀ buf : List Nat, (cstr buf).isSome ↔ 0 ∈ buf) ∧
    (0 < data.length → data.length < 1024 →
      (∃ i : Nat, i ≤ data.length ∧ (store recvbuf_init data)[i]? = some 0) ∧
      ssl_read_cb bev data.length data =
        some [.bufferevent_read bev 1024,
          .printf "Recv from client: %s\n" [.str (data.takeWhile (fun b => b ≠ 0))]]) ∧
    (data.length = 1024 → 0 ∉ data →
      (store recvbuf_init data).length = 1024 ∧
      (∀ i : Nat, (store recvbuf_init data)[i]? ≠ some 0) ∧
      cstr (store recvbuf_init data) = none ∧
      ssl_read_cb bev 1024 data = none) := by
  refine ⟨?_, ?_, ?_⟩
  · intro buf
    rw [cstr_eq]
    split_ifs with h <;> simp [h]
  · intro h0 hlt
    refine ⟨⟨data.length, le_refl _, ?_⟩, ?_⟩
    · rw [store_recvbuf_short data hlt, List.getElem?_append_right (le_refl _)]
      simp [List.replicate_succ]
    · exact ssl_read_cb_short bev _ data h0 hlt
  · intro hlen hz
    have hbuf : store recvbuf_init data = data := by
      rw [store_recvbuf_full data (by omega), List.take_of_length_le (by omega)]
    refine ⟨length_store_recvbuf data, ?_, ?_, ?_⟩
    · intro i hi
      rw [hbuf] at hi
      exact hz (List.getElem?_mem hi)
    · rw [cstr_store_full data hlen, if_neg hz]
    · rw [ssl_read_cb_full bev 1024 data (by decide) hlen, if_neg hz]

/-- C10 at a read of three bytes and at a read of 1024 bytes `A`. -/
theorem recvbuf_scan_bounded_iff_terminator_witness :
    ssl_read_cb 4 3 [72, 105, 33] =
      some [.bufferevent_read 4 1024, .printf "Recv from client: %s\n" [.str [72, 105, 33]]] ∧
    ssl_read_cb 4 1024 (List.replicate 1024 65) = none :=
  ⟨((recvbuf_scan_bounded_iff_terminator 4 [72, 105, 33]).2.1 (by decide)
      (by decide)).2.trans (by decide),
    ((recvbuf_scan_bounded_iff_terminator 4 (List.replicate 1024 65)).2.2
      (List.length_replicate 1024 65)
      (fun h => absurd (List.eq_of_mem_replicate h) (by decide))).2.2.2⟩

/-- C3, as stated, fails: with a key that does not match, `init_ssl_ctx` gives
its caller the same value as with a key that matches, and `main` goes on to
create the session and to run the dispatch loop. -/
theorem key_mismatch_not_in_return_value :
    (init_ssl_ctx { goodWorld with SSL_CTX_check_private_key := 0 } "c" "k" "a").val =
      (init_ssl_ctx goodWorld "c" "k" "a").val ∧
    (init_ssl_ctx { goodWorld with SSL_CTX_check_private_key := 0 } "c" "k" "a").val =
      some 1 ∧
    Action.SSL_new 1 ∈
      (main libeventFlags { goodWorld with SSL_CTX_check_private_key := 0 }).trace ∧
    (main libeventFlags { goodWorld with SSL_CTX_check_private_key := 0 }).result =
      .returned 0 := by
  decide

/-- C3, amended: when the context is created and the key does not match the
certificate, `init_ssl_ctx` reports the mismatch as its last action, the
message `Private key does not match certfile` on standard output, and only
there: it returns the context, the same value whatever the check answers, and
`main` goes on to call `SSL_new` on that context. -/
theorem key_mismatch_only_printed (K : Flags) (w : World) (ctx : Nat)
    (certfile keyfile cafile : String) (hctx : w.SSL_CTX_new = some ctx)
    (hmis : w.SSL_CTX_check_private_key = 0) :
    (init_ssl_ctx w certfile keyfile cafile).trace.getLast? =
      some (.printf "Private key does not match certfile\n" []) ∧
    (init_ssl_ctx w certfile keyfile cafile).val = some ctx ∧
    (∀ v : Int,
      (init_ssl_ctx { w with SSL_CTX_check_private_key := v } certfile keyfile cafile).val =
        some ctx) ∧
    (∃ t, (main K w).trace = init_trace w ++ Action.SSL_new ctx :: t) := by
  refine ⟨?_, ?_, ?_, main_calls_SSL_new K w ctx hctx⟩
  · unfold init_ssl_ctx
    rw [hctx]
    simp only [hmis, if_true]
    split_ifs <;> rfl
  · rw [init_ssl_ctx_val, hctx]
  · intro v
    rw [init_ssl_ctx_val]
    exact hctx

/-- C3 amended, at a world whose only failure is the key check. -/
theorem key_mismatch_only_printed_witness :
    (init_ssl_ctx { goodWorld with SSL_CTX_check_private_key := 0 } "c" "k" "a").trace.getLast? =
      some (.printf "Private key does not match certfile\n" []) ∧
    (init_ssl_ctx { goodWorld with SSL_CTX_check_private_key := 0 } "c" "k" "a").val = some 1 :=
  have h := key_mismatch_only_printed libeventFlags
    { goodWorld with SSL_CTX_check_private_key := 0 } 1 "c" "k" "a" rfl rfl
  ⟨h.1, h.2.1⟩

/-- C5: exactly one teardown per session lifetime.  Over every sequence of
notifications that arrives for a session, the callbacks run by the dispatch
loop call `bufferevent_free` at most once; the session is freed if and only if
an event without the connected bit arrives, with the end-of-file bit or
without it, and then `bufferevent_free` is called on the session exactly once;
no read notification and no connect event frees it. -/
theorem exactly_one_teardown_per_lifetime (K : Flags) (errstr : Int → String) (bev : Nat)
    (ns : List Notif) (h : ∀ x ∈ ns, x.terminated = true) :
    ∃ t freed, dispatch K errstr bev ns = some (t, freed) ∧
      (frees t).length ≤ 1 ∧
      (freed = true ↔ ∃ x ∈ ns, x.teardown K = true) ∧
      (freed = true → frees t = [bev]) ∧
      (freed = false → frees t = []) ∧
      (∀ events err, Notif.teardown K (.event events err) = true ↔
        Int.land events K.BEV_EVENT_CONNECTED = 0) ∧
      (∀ n data, Notif.teardown K (.read n data) = false) := by
  obtain ⟨t, ht, hf⟩ := dispatch_defined K errstr bev ns h
  refine ⟨t, ns.any (Notif.teardown K), ht, ?_, ?_, ?_, ?_, ?_, fun _ _ => rfl⟩
  · rw [hf]
    split_ifs <;> simp
  · simp [List.any_eq_true]
  · intro hfreed
    rw [hf, if_pos hfreed]
  · intro hfreed
    rw [hf, hfreed]
    rfl
  · intro events err
    simp [Notif.teardown]

/-- C5 at a session that connects, reads the echoed greeting and is ended by
end of file, and at a session that connects and is ended by an error. -/
theorem exactly_one_teardown_per_lifetime_witness :
    (∃ t, dispatch libeventFlags (fun _ => "") 4
        [.event 0x80 0, .read 12 greeting, .event 0x10 0] = some (t, true) ∧
      frees t = [4]) ∧
    (∃ t, dispatch libeventFlags (fun _ => "") 4
        [.event 0x80 0, .event 0x20 104] = some (t, true) ∧
      frees t = [4]) :=
  ⟨match exactly_one_teardown_per_lifetime libeventFlags (fun _ => "") 4
      [.event 0x80 0, .read 12 greeting, .event 0x10 0] (by decide) with
    | ⟨t, true, ht, _, _, hf, _⟩ => ⟨t, ht, hf rfl⟩
    | ⟨_, false, _, _, hiff, _⟩ =>
      absurd (hiff.mpr ⟨.event 0x10 0, by decide, by decide⟩) (by decide),
    match exactly_one_teardown_per_lifetime libeventFlags (fun _ => "") 4
      [.event 0x80 0, .event 0x20 104] (by decide) with
    | ⟨t, true, ht, _, _, hf, _⟩ => ⟨t, ht, hf rfl⟩
    | ⟨_, false, _, _, hiff, _⟩ =>
      absurd (hiff.mpr ⟨.event 0x20 104, by decide, by decide⟩) (by decide)⟩

end Client
